import Mathlib

/-
  Verification model of the two Ansible modules in this repository:
    library/panos_query.py     (rulebase query / filter)
    library/panos_add_rule.py  (security-rule creation)

  The Python code is embedded shallowly: pandevice object trees become record
  types holding the attributes the modules read; Python exceptions
  (ValueError from int()/ipaddress, AttributeError from attribute access on
  False/None, IndexError from list indexing) become an Except monad; the
  Ansible exit_json/fail_json calls become an outcome datatype.
-/

namespace Panos

/-- Python exceptions that the modelled code can raise. -/
inductive PyErr
  | valueError
  | attributeError
  | indexError
  deriving DecidableEq, Repr

instance {ε α : Type} [DecidableEq ε] [DecidableEq α] : DecidableEq (Except ε α) := fun x y =>
  match x, y with
  | Except.ok a, Except.ok b =>
    if h : a = b then Decidable.isTrue (by rw [h])
    else Decidable.isFalse (fun hc => h (Except.ok.inj hc))
  | Except.error a, Except.error b =>
    if h : a = b then Decidable.isTrue (by rw [h])
    else Decidable.isFalse (fun hc => h (Except.error.inj hc))
  | Except.ok _, Except.error _ => Decidable.isFalse (fun hc => Except.noConfusion hc)
  | Except.error _, Except.ok _ => Decidable.isFalse (fun hc => Except.noConfusion hc)

/- ---------- Python string primitives (str.split, int(), the in operator) ---------- -/

def dotChar : Char := '.'
def dashChar : Char := '-'
def commaChar : Char := ','
def slashChar : Char := '/'

def chSplit (sep : Char) : List Char → List Char → List (List Char)
  | acc, [] => [acc.reverse]
  | acc, c :: cs =>
    if c == sep then acc.reverse :: chSplit sep [] cs
    else chSplit sep (c :: acc) cs

/-- Python s.split(sep) for a one-character separator. -/
def pySplit (s : String) (sep : Char) : List String :=
  (chSplit sep [] s.toList).map (fun l => String.mk l)

def digitVal (c : Char) : Option Nat :=
  if c.toNat ≥ 48 && c.toNat ≤ 57 then some (c.toNat - 48) else none

def digitsVal : List Char → Option Nat → Option Nat
  | [], acc => acc
  | c :: cs, acc =>
    match digitVal c, acc with
    | some d, some n => digitsVal cs (some (n * 10 + d))
    | some d, none => digitsVal cs (some d)
    | none, _ => none

/-- Python int(s): optional leading minus then decimal digits; None on failure
(the caller turns the None into a ValueError). -/
def pyInt (s : String) : Option Int :=
  match s.toList with
  | [] => none
  | c :: cs =>
    if c == dashChar then
      match cs with
      | [] => none
      | _ => (digitsVal cs none).map (fun n => -(n : Int))
    else (digitsVal (c :: cs) none).map (fun n => (n : Int))

/-- Python "c in s" for a one-character needle. -/
def pyContains (s : String) (c : Char) : Bool :=
  s.toList.contains c

/-- Truthiness of an optional-string Ansible parameter: None and the empty
string are falsy, every other string is truthy. -/
def truthy : Option String → Bool
  | none => false
  | some s => !(s == "")

/- ---------- ipaddress library model (IPv4 only, as exercised by the modules) ---------- -/

/-- One dotted-quad octet: one to three digits, value at most 255. -/
def parseOctet (s : String) : Option Nat :=
  let cs := s.toList
  if cs.isEmpty || decide (cs.length > 3) then none
  else
    match digitsVal cs none with
    | some n => if n ≤ 255 then some n else none
    | none => none

/-- ipaddress.ip_address: parse a dotted-quad IPv4 address to its 32-bit value;
None models the ValueError raised on malformed input. -/
def ip_address (s : String) : Option Nat :=
  match pySplit s dotChar with
  | [a, b, c, d] =>
    match parseOctet a, parseOctet b, parseOctet c, parseOctet d with
    | some a, some b, some c, some d => some (((a * 256 + b) * 256 + c) * 256 + d)
    | _, _, _, _ => none
  | _ => none

def parsePrefixLen (s : String) : Option Nat :=
  let cs := s.toList
  if cs.isEmpty then none
  else
    match digitsVal cs none with
    | some n => if n ≤ 32 then some n else none
    | none => none

/-- ipaddress.ip_network with the default strict mode: a bare address becomes
a /32 network; "addr/prefix" is rejected (ValueError, modelled as None) when
the host bits are not all zero. The result is (network address, prefix length). -/
def ip_network (s : String) : Option (Nat × Nat) :=
  match pySplit s slashChar with
  | [a] => (ip_address a).map (fun ip => (ip, 32))
  | [a, p] =>
    match ip_address a, parsePrefixLen p with
    | some ip, some n => if ip % 2 ^ (32 - n) == 0 then some (ip, n) else none
    | _, _ => none
  | _ => none

/-- Python "ip in network" membership for the pair produced by ip_network. -/
def ipInNet (ip : Nat) (net : Nat × Nat) : Bool :=
  ip / 2 ^ (32 - net.2) == net.1 / 2 ^ (32 - net.2)

/- ---------- pandevice object model: the attributes the modules read ---------- -/

structure AddressObject where
  name : String
  type : String
  value : String
  deriving DecidableEq, Repr

structure AddressGroup where
  name : String
  static_value : List String
  deriving DecidableEq, Repr

structure ServiceObject where
  name : String
  protocol : String
  source_port : String
  destination_port : String
  deriving DecidableEq, Repr

structure ServiceGroup where
  name : String
  value : List String
  deriving DecidableEq, Repr

structure TagObject where
  name : String
  deriving DecidableEq, Repr

/-- A security rule as read by the query module. -/
structure Rule where
  name : String
  fromzone : List String
  tozone : List String
  source : List String
  destination : List String
  service : List String
  tag : List String
  deriving DecidableEq, Repr

/-- One lookup scope of named objects (the global device tree, or one
Panorama device group), as populated by the refreshall snapshot calls. -/
structure Scope where
  addressObjects : List AddressObject := []
  addressGroups : List AddressGroup := []
  serviceObjects : List ServiceObject := []
  serviceGroups : List ServiceGroup := []
  tags : List TagObject := []
  deriving DecidableEq, Repr

/-- The connected device: a standalone firewall or a Panorama manager with
its named device groups, each carrying its own object scope.  The rulebase
obtained from get_rulebase/refreshall is part of the snapshot. -/
structure Device where
  isPanorama : Bool
  deviceGroups : List (String × Scope) := []
  glob : Scope
  rules : List Rule := []
  deriving DecidableEq, Repr

/-- The resolution environment inside main: the device plus the dev_group
variable (None unless a Panorama device group was looked up). -/
structure Env where
  device : Device
  devGroup : Option Scope
  deriving DecidableEq, Repr

inductive AddrEntity
  | obj (o : AddressObject)
  | grp (g : AddressGroup)
  deriving DecidableEq, Repr

inductive SvcEntity
  | obj (o : ServiceObject)
  | grp (g : ServiceGroup)
  deriving DecidableEq, Repr

def findAddressObject (s : Scope) (n : String) : Option AddressObject :=
  s.addressObjects.find? (fun o => o.name == n)

def findAddressGroup (s : Scope) (n : String) : Option AddressGroup :=
  s.addressGroups.find? (fun g => g.name == n)

def findServiceObject (s : Scope) (n : String) : Option ServiceObject :=
  s.serviceObjects.find? (fun o => o.name == n)

def findServiceGroup (s : Scope) (n : String) : Option ServiceGroup :=
  s.serviceGroups.find? (fun g => g.name == n)

def findTag (s : Scope) (n : String) : Option TagObject :=
  s.tags.find? (fun t => t.name == n)

/-- panos_query.get_object: global address objects, then global address
groups, then (on Panorama) the same two lookups in the device group.  When
the device is a Panorama but dev_group is None, dev_group.find raises
AttributeError. -/
def get_object (env : Env) (n : String) : Except PyErr (Option AddrEntity) :=
  match findAddressObject env.device.glob n with
  | some o => Except.ok (some (AddrEntity.obj o))
  | none =>
    match findAddressGroup env.device.glob n with
    | some g => Except.ok (some (AddrEntity.grp g))
    | none =>
      if env.device.isPanorama then
        match env.devGroup with
        | none => Except.error PyErr.attributeError
        | some dg =>
          match findAddressObject dg n with
          | some o => Except.ok (some (AddrEntity.obj o))
          | none =>
            match findAddressGroup dg n with
            | some g => Except.ok (some (AddrEntity.grp g))
            | none => Except.ok none
      else Except.ok none

/-- panos_query.get_service: same search order over service objects/groups. -/
def get_service (env : Env) (n : String) : Except PyErr (Option SvcEntity) :=
  match findServiceObject env.device.glob n with
  | some o => Except.ok (some (SvcEntity.obj o))
  | none =>
    match findServiceGroup env.device.glob n with
    | some g => Except.ok (some (SvcEntity.grp g))
    | none =>
      if env.device.isPanorama then
        match env.devGroup with
        | none => Except.error PyErr.attributeError
        | some dg =>
          match findServiceObject dg n with
          | some o => Except.ok (some (SvcEntity.obj o))
          | none =>
            match findServiceGroup dg n with
            | some g => Except.ok (some (SvcEntity.grp g))
            | none => Except.ok none
      else Except.ok none

/-- panos_query.get_tag: global tags, then (on Panorama) device-group tags. -/
def get_tag (env : Env) (n : String) : Except PyErr (Option TagObject) :=
  match findTag env.device.glob n with
  | some t => Except.ok (some t)
  | none =>
    if env.device.isPanorama then
      match env.devGroup with
      | none => Except.error PyErr.attributeError
      | some dg => Except.ok (findTag dg n)
    else Except.ok none

def parseAddrOrRaise (s : String) : Except PyErr Nat :=
  match ip_address s with
  | some ip => Except.ok ip
  | none => Except.error PyErr.valueError

/-- panos_query.addr_in_obj.  The first line parses the queried address
(ValueError on malformed input).  An ip-netmask object parses its value with
ip_network (ValueError propagates); an ip-range object splits its value on
the dash and matches strictly between the bounds.  Any argument that is not
an AddressObject (False from get_object, or an AddressGroup) returns False. -/
def addr_in_obj (addr : String) (obj : Option AddrEntity) : Except PyErr Bool :=
  match parseAddrOrRaise addr with
  | Except.error e => Except.error e
  | Except.ok ip =>
    match obj with
    | some (AddrEntity.obj o) =>
      match (if o.type == "ip-netmask" then
               match ip_network o.value with
               | some net => Except.ok (ipInNet ip net)
               | none => Except.error PyErr.valueError
             else Except.ok false : Except PyErr Bool) with
      | Except.error e => Except.error e
      | Except.ok true => Except.ok true
      | Except.ok false =>
        if o.type == "ip-range" then
          match pySplit o.value dashChar with
          | [lo] =>
            match parseAddrOrRaise lo with
            | Except.error e => Except.error e
            | Except.ok _ => Except.error PyErr.indexError
          | lo :: hi :: _ =>
            match parseAddrOrRaise lo with
            | Except.error e => Except.error e
            | Except.ok lower =>
              match parseAddrOrRaise hi with
              | Except.error e => Except.error e
              | Except.ok upper =>
                Except.ok (decide (lower < ip) && decide (ip < upper))
          | [] => Except.error PyErr.indexError
        else Except.ok false
    | _ => Except.ok false

inductive PortSide
  | src
  | dst
  deriving DecidableEq, Repr

def parseIntOrRaise (s : String) : Except PyErr Int :=
  match pyInt s with
  | some n => Except.ok n
  | none => Except.error PyErr.valueError

/-- The per-element loop body of panos_query.port_in_svc: a comma-separated
element either contains a dash (numeric range, bounds exclusive, evaluation
order int(lower), int(upper), int(port)) or is compared to the queried port
by string equality; either way the object protocol must equal the queried
protocol (which may be None). -/
def portElems (svc : ServiceObject) (protocol : Option String) (port : String) :
    List String → Except PyErr Bool
  | [] => Except.ok false
  | x :: rest =>
    if pyContains x dashChar then
      match pySplit x dashChar with
      | lo :: hi :: _ =>
        match parseIntOrRaise lo with
        | Except.error e => Except.error e
        | Except.ok lower =>
          match parseIntOrRaise hi with
          | Except.error e => Except.error e
          | Except.ok upper =>
            match parseIntOrRaise port with
            | Except.error e => Except.error e
            | Except.ok p =>
              if lower < p && p < upper && (some svc.protocol == protocol) then
                Except.ok true
              else portElems svc protocol port rest
      | _ => Except.error PyErr.indexError
    else
      if port == x && (some svc.protocol == protocol) then Except.ok true
      else portElems svc protocol port rest

/-- panos_query.port_in_svc: reads source_port or destination_port off the
object and folds over its comma-separated elements.  Called with anything
that is not a ServiceObject (False from get_service, or a ServiceGroup) the
attribute access raises AttributeError. -/
def port_in_svc (side : PortSide) (port : String) (protocol : Option String)
    (obj : Option SvcEntity) : Except PyErr Bool :=
  match obj with
  | some (SvcEntity.obj svc) =>
    match side with
    | PortSide.src => portElems svc protocol port (pySplit svc.source_port commaChar)
    | PortSide.dst => portElems svc protocol port (pySplit svc.destination_port commaChar)
  | _ => Except.error PyErr.attributeError

/- ---------- panos_query.main: criteria evaluation and the rule loop ---------- -/

/-- The module parameters of panos_query (connection parameters omitted).
None models an unsupplied Ansible parameter. -/
structure QueryParams where
  application : Option String := none
  source_zone : Option String := none
  destination_zone : Option String := none
  source_ip : Option String := none
  destination_ip : Option String := none
  source_port : Option String := none
  destination_port : Option String := none
  protocol : Option String := none
  tag : Option String := none
  devicegroup : Option String := none
  deriving DecidableEq, Repr

/-- The zone criteria: true when the zone list contains the literal "any"
(loose_match is always True) or the exact queried zone string. -/
def zone_match (queried : String) (zones : List String) : Bool :=
  if zones.contains "any" then true else zones.contains queried

/-- Inner loop over an address group's static members: each member name is
resolved again and passed to addr_in_obj (which returns False for a member
that did not resolve); the match flag is never reset. -/
def ipMembers (env : Env) (q : String) : List String → Bool → Except PyErr Bool
  | [], acc => Except.ok acc
  | m :: rest, acc =>
    match get_object env m with
    | Except.error e => Except.error e
    | Except.ok member =>
      match addr_in_obj q member with
      | Except.error e => Except.error e
      | Except.ok b => ipMembers env q rest (acc || b)

/-- One iteration of the address-token loop.  An unresolved token is parsed
as a literal IP network and rebound to obj (ValueError skips the token), but
the subsequent isinstance checks accept only AddressObject or AddressGroup,
so the parsed literal network never contributes a match. -/
def ipTokenStep (env : Env) (q : String) (acc : Bool) (t : String) : Except PyErr Bool :=
  match get_object env t with
  | Except.error e => Except.error e
  | Except.ok none =>
    match ip_network t with
    | some _ => Except.ok acc
    | none => Except.ok acc
  | Except.ok (some (AddrEntity.obj o)) =>
    match addr_in_obj q (some (AddrEntity.obj o)) with
    | Except.error e => Except.error e
    | Except.ok b => Except.ok (acc || b)
  | Except.ok (some (AddrEntity.grp g)) =>
    if g.static_value.isEmpty then Except.ok acc
    else ipMembers env q g.static_value acc

def ipTokens (env : Env) (q : String) : List String → Bool → Except PyErr Bool
  | [], acc => Except.ok acc
  | t :: rest, acc =>
    match ipTokenStep env q acc t with
    | Except.error e => Except.error e
    | Except.ok acc2 => ipTokens env q rest acc2

/-- The source_ip/destination_ip criterion over the rule's address list. -/
def ip_criterion (env : Env) (q : String) (addrs : List String) : Except PyErr Bool :=
  if addrs.contains "any" then Except.ok true
  else ipTokens env q addrs false

/-- Inner loop over a service group's members: each member name is resolved
and the result is passed to port_in_svc unconditionally, so an unresolved
member raises AttributeError. -/
def svcMembers (env : Env) (side : PortSide) (port : String) (protocol : Option String) :
    List String → Bool → Except PyErr Bool
  | [], acc => Except.ok acc
  | m :: rest, acc =>
    match get_service env m with
    | Except.error e => Except.error e
    | Except.ok member =>
      match port_in_svc side port protocol member with
      | Except.error e => Except.error e
      | Except.ok b => svcMembers env side port protocol rest (acc || b)

/-- The service-token loop: a token resolving to a ServiceObject is tested
directly, a ServiceGroup is expanded one level, and anything else is
silently skipped. -/
def svcTokens (env : Env) (side : PortSide) (port : String) (protocol : Option String) :
    List String → Bool → Except PyErr Bool
  | [], acc => Except.ok acc
  | t :: rest, acc =>
    match get_service env t with
    | Except.error e => Except.error e
    | Except.ok (some (SvcEntity.obj s)) =>
      match port_in_svc side port protocol (some (SvcEntity.obj s)) with
      | Except.error e => Except.error e
      | Except.ok b => svcTokens env side port protocol rest (acc || b)
    | Except.ok (some (SvcEntity.grp g)) =>
      match svcMembers env side port protocol g.value acc with
      | Except.error e => Except.error e
      | Except.ok acc2 => svcTokens env side port protocol rest acc2
    | Except.ok none => svcTokens env side port protocol rest acc

/-- The source_port/destination_port criterion over the rule's service list:
"any" matches everything, "application-default" is pinned to False, any
other list is folded token by token. -/
def port_criterion (env : Env) (side : PortSide) (port : String) (protocol : Option String)
    (services : List String) : Except PyErr Bool :=
  if services.contains "any" then Except.ok true
  else if services.contains "application-default" then Except.ok false
  else svcTokens env side port protocol services false

/-- The tag loop of panos_query.main: resolve each tag name on the rule; the
result is True exactly when some resolved tag object's name equals the
queried tag (the loop body executes "return True" there, which returns from
main itself). -/
def tag_hit (env : Env) (queried : String) : List String → Except PyErr Bool
  | [] => Except.ok false
  | t :: rest =>
    match get_tag env t with
    | Except.error e => Except.error e
    | Except.ok (some tg) =>
      if tg.name == queried then Except.ok true else tag_hit env queried rest
    | Except.ok none => tag_hit env queried rest

/-- Append a criterion's boolean to the hit list when the criterion is
supplied; an unsupplied criterion contributes nothing. -/
def appendCrit (hl : Except PyErr (List Bool)) (active : Bool) (crit : Except PyErr Bool) :
    Except PyErr (List Bool) :=
  match hl with
  | Except.error e => Except.error e
  | Except.ok l =>
    if active then
      match crit with
      | Except.error e => Except.error e
      | Except.ok b => Except.ok (l ++ [b])
    else Except.ok l

/-- The hit list a rule accumulates before the tag criterion runs: the two
zone checks, the two IP checks and the two port checks, in source order. -/
def preTagHitlist (env : Env) (p : QueryParams) (r : Rule) : Except PyErr (List Bool) :=
  let hl1 : List Bool :=
    if truthy p.source_zone then [zone_match (p.source_zone.getD "") r.fromzone] else []
  let hl2 : List Bool :=
    if truthy p.destination_zone then hl1 ++ [zone_match (p.destination_zone.getD "") r.tozone]
    else hl1
  let e3 := appendCrit (Except.ok hl2) (truthy p.source_ip)
    (ip_criterion env (p.source_ip.getD "") r.source)
  let e4 := appendCrit e3 (truthy p.destination_ip)
    (ip_criterion env (p.destination_ip.getD "") r.destination)
  let e5 := appendCrit e4 (truthy p.source_port)
    (port_criterion env PortSide.src (p.source_port.getD "") p.protocol r.service)
  appendCrit e5 (truthy p.destination_port)
    (port_criterion env PortSide.dst (p.destination_port.getD "") p.protocol r.service)

/-- Result of evaluating one rule inside the loop: either the completed hit
list, or the "return True" executed from inside the tag loop. -/
inductive RuleEval
  | hitlist (l : List Bool)
  | earlyReturn
  deriving DecidableEq, Repr

/-- Evaluation of one rule: the six pre-tag criteria, then the tag
criterion, whose first match returns from main; with no tag match the
always-False tag_match flag is appended. -/
def evalRule (env : Env) (p : QueryParams) (r : Rule) : Except PyErr RuleEval :=
  match preTagHitlist env p r with
  | Except.error e => Except.error e
  | Except.ok hl =>
    if truthy p.tag then
      match tag_hit env (p.tag.getD "") r.tag with
      | Except.error e => Except.error e
      | Except.ok true => Except.ok RuleEval.earlyReturn
      | Except.ok false => Except.ok (RuleEval.hitlist (hl ++ [false]))
    else Except.ok (RuleEval.hitlist hl)

/-- The rule loop: a rule whose hit list contains no False is added to the
hit rulebase; the tag-criterion early return abandons the loop (None). -/
def processRules (env : Env) (p : QueryParams) :
    List Rule → List Rule → Except PyErr (Option (List Rule))
  | hits, [] => Except.ok (some hits)
  | hits, r :: rest =>
    match evalRule env p r with
    | Except.error e => Except.error e
    | Except.ok RuleEval.earlyReturn => Except.ok none
    | Except.ok (RuleEval.hitlist l) =>
      if l.contains false then processRules env p hits rest
      else processRules env p (hits ++ [r]) rest

def dgNotFoundMsg (g : String) : String :=
  "'" ++ g ++ "' device group not found in Panorama. Is the name correct?"

/-- The devicegroup validation block of panos_query.main: on a Panorama with
a truthy devicegroup parameter, look the group up by exact name; a miss is a
fail_json, a hit makes the group's scope the dev_group variable. -/
def dgResolve (d : Device) (p : QueryParams) : Except String (Option Scope) :=
  if truthy p.devicegroup && d.isPanorama then
    match d.deviceGroups.find? (fun gs => gs.1 == p.devicegroup.getD "") with
    | some gs => Except.ok (some gs.2)
    | none => Except.error (dgNotFoundMsg (p.devicegroup.getD ""))
  else Except.ok none

def countMsg (m n : Nat) : String :=
  toString m ++ " of " ++ toString n ++ " rules matched"

/-- Observable outcome of one panos_query.main invocation. -/
inductive QueryOutcome
  | failDevGroup (msg : String)
  | earlyReturn
  | exitOk (hits : List Rule) (msg : String)
  | failNoMatch (msg : String)
  | pyError (e : PyErr)
  deriving DecidableEq, Repr

/-- panos_query.main after the snapshot load: devicegroup validation, the
rule loop, then exit_json with the matched rules and a count summary when
the hit rulebase is non-empty, else fail_json.  earlyReturn is the "return
True" path, which leaves main without calling either exit function;
pyError is an uncaught Python exception escaping main. -/
def queryMain (d : Device) (p : QueryParams) : QueryOutcome :=
  match dgResolve d p with
  | Except.error m => QueryOutcome.failDevGroup m
  | Except.ok dg =>
    match processRules { device := d, devGroup := dg } p [] d.rules with
    | Except.error e => QueryOutcome.pyError e
    | Except.ok none => QueryOutcome.earlyReturn
    | Except.ok (some hits) =>
      if hits.isEmpty then QueryOutcome.failNoMatch "No matching rules found."
      else QueryOutcome.exitOk hits (countMsg hits.length d.rules.length)

/- ---------- panos_add_rule: rule construction and main ---------- -/

/-- The keyword arguments of create_security_rule.  For the conditionally
read keys, the outer Option models key presence in kwargs and the inner
Option models a Python value that may be None. -/
structure RuleKwargs where
  rule_name : String
  description : String
  to_zone : List String
  from_zone : List String
  source : List String
  source_user : List String
  destination : List String
  category : List String
  application : List String
  service : List String
  hip_profiles : List String
  log_start : Bool
  log_end : Bool
  rule_type : String
  action : String
  tag : Option (Option String) := none
  group_profile : Option (Option String) := none
  antivirus : Option (Option String) := none
  vulnerability : Option (Option String) := none
  spyware : Option (Option String) := none
  url_filtering : Option (Option String) := none
  file_blocking : Option (Option String) := none
  data_filtering : Option (Option String) := none
  wildfire_analysis : Option (Option String) := none
  deriving DecidableEq, Repr

/-- The constructed pandevice SecurityRule.  The profile attributes are None
(unset) unless assigned; some v records an assignment of the Python value v. -/
structure SecurityRule where
  name : String
  description : String
  tozone : List String
  fromzone : List String
  source : List String
  source_user : List String
  destination : List String
  category : List String
  application : List String
  service : List String
  hip_profiles : List String
  log_start : Bool
  log_end : Bool
  type : String
  action : String
  tag : Option (Option String) := none
  group : Option (Option String) := none
  virus : Option (Option String) := none
  vulnerability : Option (Option String) := none
  spyware : Option (Option String) := none
  url_filtering : Option (Option String) := none
  file_blocking : Option (Option String) := none
  data_filtering : Option (Option String) := none
  wildfire_analysis : Option (Option String) := none
  deriving DecidableEq, Repr

/-- panos_add_rule.create_security_rule: build the rule from the positional
attributes, set tag when the key is present, then set either the composite
profile group or, only when the group_profile key is absent, each present
individual profile. -/
def create_security_rule (k : RuleKwargs) : SecurityRule :=
  let base : SecurityRule :=
    { name := k.rule_name, description := k.description, tozone := k.to_zone,
      fromzone := k.from_zone, source := k.source, source_user := k.source_user,
      destination := k.destination, category := k.category,
      application := k.application, service := k.service,
      hip_profiles := k.hip_profiles, log_start := k.log_start,
      log_end := k.log_end, type := k.rule_type, action := k.action }
  let base := match k.tag with
    | some v => { base with tag := some v }
    | none => base
  match k.group_profile with
  | some v => { base with group := some v }
  | none =>
    let base := match k.antivirus with
      | some v => { base with virus := some v }
      | none => base
    let base := match k.vulnerability with
      | some v => { base with vulnerability := some v }
      | none => base
    let base := match k.spyware with
      | some v => { base with spyware := some v }
      | none => base
    let base := match k.url_filtering with
      | some v => { base with url_filtering := some v }
      | none => base
    let base := match k.file_blocking with
      | some v => { base with file_blocking := some v }
      | none => base
    let base := match k.data_filtering with
      | some v => { base with data_filtering := some v }
      | none => base
    match k.wildfire_analysis with
    | some v => { base with wildfire_analysis := some v }
    | none => base

/-- The module parameters of panos_add_rule (connection parameters omitted);
parameters declared without a default are None when unsupplied. -/
structure AddParams where
  rule_name : String
  description : String := ""
  tag : Option String := none
  to_zone : List String := ["any"]
  from_zone : List String := ["any"]
  source : List String := ["any"]
  source_user : List String := ["any"]
  destination : List String := ["any"]
  category : List String := ["any"]
  application : List String := ["any"]
  service : List String := ["application-default"]
  hip_profiles : List String := ["any"]
  group_profile : Option String := none
  antivirus : Option String := none
  vulnerability : Option String := none
  spyware : Option String := none
  url_filtering : Option String := none
  file_blocking : Option String := none
  data_filtering : Option String := none
  wildfire_analysis : Option String := none
  log_start : Bool := false
  log_end : Bool := true
  rule_type : String := "universal"
  action : String := "allow"
  devicegroup : Option String := none
  deriving DecidableEq, Repr

/-- panos_add_rule.devicegroup_exists: scan the manager's device groups for
an exact name match against the devicegroup parameter (which may be None). -/
def devicegroup_exists (d : Device) (devicegroup : Option String) : Bool :=
  d.deviceGroups.any (fun gs => some gs.1 == devicegroup)

/-- Python "%s" formatting of an optional string. -/
def pyFormatStr : Option String → String
  | some s => s
  | none => "None"

/-- The kwargs that panos_add_rule.main passes to create_security_rule:
every key is present, including group_profile and all seven individual
profiles (each possibly carrying the value None). -/
def kwargsOfParams (p : AddParams) : RuleKwargs :=
  { rule_name := p.rule_name, description := p.description, tag := some p.tag,
    from_zone := p.from_zone, to_zone := p.to_zone, source := p.source,
    source_user := p.source_user, destination := p.destination,
    category := p.category, application := p.application, service := p.service,
    hip_profiles := p.hip_profiles,
    group_profile := some p.group_profile, antivirus := some p.antivirus,
    vulnerability := some p.vulnerability, spyware := some p.spyware,
    url_filtering := some p.url_filtering, file_blocking := some p.file_blocking,
    data_filtering := some p.data_filtering,
    wildfire_analysis := some p.wildfire_analysis,
    log_start := p.log_start, log_end := p.log_end, rule_type := p.rule_type,
    action := p.action }

/-- Observable outcome of one panos_add_rule.main invocation (the PanXapiError
transport path is outside the model). -/
inductive AddOutcome
  | failDevGroup (msg : String)
  | added (rule : SecurityRule) (msg : String)
  deriving DecidableEq, Repr

/-- panos_add_rule.main: on a Panorama the devicegroup must exist (a miss is
a fail_json before any rule is built); otherwise the rule is constructed and
submitted. -/
def addRuleMain (d : Device) (p : AddParams) : AddOutcome :=
  if d.isPanorama && !devicegroup_exists d p.devicegroup then
    AddOutcome.failDevGroup (dgNotFoundMsg (pyFormatStr p.devicegroup))
  else
    AddOutcome.added (create_security_rule (kwargsOfParams p))
      ("Rule '" ++ p.rule_name ++ "' successfully added")

/- ---------- Concrete fixtures used by the witnesses and counterexamples ---------- -/

/-- The C6 service object: protocol tcp, destination-port spec "443,8000-8100". -/
def svc443 : ServiceObject :=
  { name := "web", protocol := "tcp", source_port := "", destination_port := "443,8000-8100" }

/-- The C7 address object: an ip-range with value "10.0.0.10-10.0.0.20". -/
def rangeObj : AddressObject :=
  { name := "rng", type := "ip-range", value := "10.0.0.10-10.0.0.20" }

/-- A firewall whose single rule carries, as its source list, one token that
resolves to no named object but parses as the literal network 10.0.0.0/24. -/
def literalNetDevice : Device :=
  { isPanorama := false, glob := {},
    rules := [{ name := "r1", fromzone := ["any"], tozone := ["any"],
                source := ["10.0.0.0/24"], destination := ["any"],
                service := ["any"], tag := [] }] }

def literalNetParams : QueryParams := { source_ip := some "10.0.0.5" }

/-- A firewall whose single rule references a service object with a ranged
port spec; querying it with a non-numeric port reaches int(port). -/
def badPortDevice : Device :=
  { isPanorama := false,
    glob := { serviceObjects := [{ name := "svc-range", protocol := "tcp",
                                   source_port := "80-90",
                                   destination_port := "80-90" }] },
    rules := [{ name := "r1", fromzone := ["any"], tozone := ["any"],
                source := ["any"], destination := ["any"],
                service := ["svc-range"], tag := [] }] }

def badPortParams : QueryParams :=
  { destination_port := some "https", protocol := some "tcp" }

def tagRule1 : Rule :=
  { name := "r1", fromzone := ["any"], tozone := ["any"], source := ["any"],
    destination := ["any"], service := ["any"], tag := ["prod"] }

def tagRule2 : Rule :=
  { name := "r2", fromzone := ["any"], tozone := ["any"], source := ["any"],
    destination := ["any"], service := ["any"], tag := ["prod"] }

/-- A firewall with two rules, both tagged prod, and the tag prod defined. -/
def tagDevice : Device :=
  { isPanorama := false, glob := { tags := [{ name := "prod" }] },
    rules := [tagRule1, tagRule2] }

def tagParams : QueryParams := { tag := some "prod" }

/-- A Panorama knowing one device group, DG1. -/
def dgDevice : Device :=
  { isPanorama := true, deviceGroups := [("DG1", {})], glob := {}, rules := [] }

/-- A firewall with a service group whose sole member name resolves to
nothing, referenced by the only rule's service list. -/
def ghostDevice : Device :=
  { isPanorama := false,
    glob := { serviceGroups := [{ name := "grp", value := ["ghost"] }] },
    rules := [{ name := "r1", fromzone := ["any"], tozone := ["any"],
                source := ["any"], destination := ["any"],
                service := ["grp"], tag := [] }] }

def ghostParams : QueryParams :=
  { destination_port := some "443", protocol := some "tcp" }

/-- The service object of the C4 witness: both port specs are the range 80-90. -/
def badPortSvc : ServiceObject :=
  { name := "svc-range", protocol := "tcp", source_port := "80-90",
    destination_port := "80-90" }

/-- The C3 failing input: the user supplies the antivirus profile but not
group_profile (which is therefore None, the parameter default). -/
def c3Params : AddParams := { rule_name := "r", antivirus := some "AV" }

/-- A standalone firewall for the C3 failing input (no Panorama check). -/
def c3Device : Device := { isPanorama := false, glob := {} }

/- ---------- Helper lemmas about the rule loop ---------- -/

/-- Rules that evaluate to a completed hit list neither raise nor return
early, so the loop walks past them into the remainder of the rulebase. -/
lemma processRules_hitlist_prefix (env : Env) (p : QueryParams) :
    ∀ (rs1 : List Rule) (acc rest : List Rule),
      (∀ ru ∈ rs1, ∃ l, evalRule env p ru = Except.ok (RuleEval.hitlist l)) →
      ∃ acc2, processRules env p acc (rs1 ++ rest) = processRules env p acc2 rest := by
  intro rs1
  induction rs1 with
  | nil => intro acc rest _; exact ⟨acc, rfl⟩
  | cons ru rs ih =>
    intro acc rest h
    obtain ⟨l, hev⟩ := h ru (List.mem_cons_self ru rs)
    have hrest : ∀ x ∈ rs, ∃ l, evalRule env p x = Except.ok (RuleEval.hitlist l) :=
      fun x hx => h x (List.mem_cons_of_mem ru hx)
    simp only [List.cons_append, processRules, hev]
    by_cases hc : l.contains false
    · simp only [hc, if_true]
      exact ih acc rest hrest
    · have hc2 : l.contains false = false := by
        cases hb : l.contains false with
        | false => rfl
        | true => exact absurd hb hc
      simp only [hc2, Bool.false_eq_true, if_false]
      exact ih (acc ++ [ru]) rest hrest

/-- A service-group member list containing a name that resolves to nothing
always makes the member fold raise: either the unresolved member reaches
port_in_svc (AttributeError) or an earlier member raises first. -/
lemma svcMembers_unresolved_member_errs (env : Env) (side : PortSide) (port : String)
    (protocol : Option String) (m : String)
    (hmu : get_service env m = Except.ok none) :
    ∀ (ms : List String) (acc : Bool), m ∈ ms →
      ∃ e, svcMembers env side port protocol ms acc = Except.error e := by
  intro ms
  induction ms with
  | nil => intro acc h; exact absurd h (List.not_mem_nil m)
  | cons a tl ih =>
    intro acc hm
    cases hga : get_service env a with
    | error e => exact ⟨e, by simp only [svcMembers, hga]⟩
    | ok member =>
      rcases List.mem_cons.mp hm with rfl | hm2
      · have hmem : member = none := by
          rw [hga] at hmu
          exact Except.ok.inj hmu
        subst hmem
        exact ⟨PyErr.attributeError, by simp only [svcMembers, hga, port_in_svc]⟩
      · cases hpi : port_in_svc side port protocol member with
        | error e => exact ⟨e, by simp only [svcMembers, hga, hpi]⟩
        | ok b =>
          obtain ⟨e, he⟩ := ih (acc || b) hm2
          exact ⟨e, by simp only [svcMembers, hga, hpi, he]⟩

end Panos

namespace Panos

/- ---------- Claim theorems ---------- -/

/-- C2: the spec states that an unresolved address-list token parsing as a
literal IP network is treated as an anonymous address object, matching
whenever the queried IP falls inside it.  The code does parse the token
(and skips it on parse failure), but then rebinds obj to an ipaddress
network value, which the subsequent isinstance(obj, AddressObject) and
isinstance(obj, AddressGroup) checks both reject, so the parsed network is
dead and the token can never contribute a match.  At the failing input the
token "10.0.0.0/24" parses to a network containing the queried IP 10.0.0.5,
yet the criterion is False and the query reports no matching rules. -/
theorem c2_literal_network_token_never_matches :
    ip_network "10.0.0.0/24" = some (167772160, 24)
    ∧ ip_address "10.0.0.5" = some 167772165
    ∧ ipInNet 167772165 (167772160, 24) = true
    ∧ get_object { device := literalNetDevice, devGroup := none } "10.0.0.0/24" =
        Except.ok none
    ∧ ip_criterion { device := literalNetDevice, devGroup := none } "10.0.0.5"
        ["10.0.0.0/24"] = Except.ok false
    ∧ queryMain literalNetDevice literalNetParams =
        QueryOutcome.failNoMatch ("No matching rules found.") := by
  refine ⟨by decide, by decide, by decide, by decide, by decide, by decide⟩

/-- C7: for an ip-range address object the containment test is strictly
exclusive at both bounds: with the range parsed as lower/upper, the result
is exactly lower < ip < upper; at the concrete value "10.0.0.10-10.0.0.20",
querying the bound 10.0.0.10 is False and querying 10.0.0.15 is True. -/
theorem c7_ip_range_bounds_exclusive (o : AddressObject) (addr lo hi : String)
    (ip lower upper : Nat) (tl : List String)
    (hty : o.type = "ip-range")
    (hsplit : pySplit o.value dashChar = lo :: hi :: tl)
    (hlo : ip_address lo = some lower)
    (hhi : ip_address hi = some upper)
    (hip : ip_address addr = some ip) :
    addr_in_obj addr (some (AddrEntity.obj o)) =
      Except.ok (decide (lower < ip) && decide (ip < upper))
    ∧ addr_in_obj "10.0.0.10" (some (AddrEntity.obj rangeObj)) = Except.ok false
    ∧ addr_in_obj "10.0.0.15" (some (AddrEntity.obj rangeObj)) = Except.ok true := by
  refine ⟨?_, by decide, by decide⟩
  have hnm : (o.type == "ip-netmask") = false := by rw [hty]; decide
  have hrg : (o.type == "ip-range") = true := by rw [hty]; decide
  simp only [addr_in_obj, parseAddrOrRaise, hip, hnm, hrg, if_false, if_true,
    Bool.false_eq_true, hsplit, hlo, hhi]

/-- C7 witness: the general equation applied to the concrete range object
and the in-range query 10.0.0.15. -/
theorem c7_ip_range_bounds_exclusive_witness :
    rangeObj.type = "ip-range"
    ∧ pySplit rangeObj.value dashChar = ["10.0.0.10", "10.0.0.20"]
    ∧ ip_address "10.0.0.10" = some 167772170
    ∧ ip_address "10.0.0.20" = some 167772180
    ∧ ip_address "10.0.0.15" = some 167772175
    ∧ (addr_in_obj "10.0.0.15" (some (AddrEntity.obj rangeObj)) =
        Except.ok (decide (167772170 < 167772175) && decide (167772175 < 167772180))
      ∧ addr_in_obj "10.0.0.10" (some (AddrEntity.obj rangeObj)) = Except.ok false
      ∧ addr_in_obj "10.0.0.15" (some (AddrEntity.obj rangeObj)) = Except.ok true) :=
  ⟨by decide, by decide, by decide, by decide, by decide,
   c7_ip_range_bounds_exclusive rangeObj "10.0.0.15" "10.0.0.10" "10.0.0.20"
     167772175 167772170 167772180 [] (by decide) (by decide) (by decide)
     (by decide) (by decide)⟩

/-- C6: the port test splits the relevant port spec on commas; a ranged
element matches strictly between its bounds (exclusive) with exact protocol
match, and a single element matches the queried port by string equality with
exact protocol match.  For the object with protocol tcp and destination spec
"443,8000-8100" and any numeric queried port n the result is exactly
(port = "443" as strings) or (8000 < n < 8100); in particular "443"/tcp and
"8050"/tcp are true while "8050"/udp and "8101"/tcp are false. -/
theorem c6_port_spec_semantics (port : String) (n : Int) (h : pyInt port = some n) :
    port_in_svc PortSide.dst port (some "tcp") (some (SvcEntity.obj svc443)) =
      Except.ok ((port == "443") ||
        (decide ((8000 : Int) < n) && decide (n < (8100 : Int))))
    ∧ port_in_svc PortSide.dst "443" (some "tcp") (some (SvcEntity.obj svc443)) =
        Except.ok true
    ∧ port_in_svc PortSide.dst "8050" (some "tcp") (some (SvcEntity.obj svc443)) =
        Except.ok true
    ∧ port_in_svc PortSide.dst "8050" (some "udp") (some (SvcEntity.obj svc443)) =
        Except.ok false
    ∧ port_in_svc PortSide.dst "8101" (some "tcp") (some (SvcEntity.obj svc443)) =
        Except.ok false := by
  refine ⟨?_, by decide, by decide, by decide, by decide⟩
  have hsplit : pySplit svc443.destination_port commaChar = ["443", "8000-8100"] := by
    decide
  have hproto : (some svc443.protocol == some "tcp") = true := by decide
  have hd1 : pyContains "443" dashChar = false := by decide
  have hd2 : pyContains "8000-8100" dashChar = true := by decide
  have hs2 : pySplit "8000-8100" dashChar = ["8000", "8100"] := by decide
  have hi1 : parseIntOrRaise "8000" = Except.ok 8000 := by decide
  have hi2 : parseIntOrRaise "8100" = Except.ok 8100 := by decide
  have hip : parseIntOrRaise port = Except.ok n := by
    simp only [parseIntOrRaise, h]
  simp only [port_in_svc, hsplit]
  simp only [portElems, hd1, hd2, hs2, hi1, hi2, hip, hproto, Bool.false_eq_true,
    if_false, Bool.and_true, if_true]
  by_cases hc : (port == "443") = true
  · simp [hc]
  · have hc2 : (port == "443") = false := by
      cases hb : (port == "443") with
      | false => rfl
      | true => exact absurd hb hc
    simp only [hc2, Bool.false_eq_true, if_false, Bool.false_or]
    by_cases h1 : (8000 : Int) < n
    · by_cases h2 : n < (8100 : Int)
      · simp [h1, h2]
      · simp [h1, h2, portElems]
    · simp [h1, portElems]

/-- C6 witness: the general equation applied to the numeric queried port
"8050", whose tcp lookup the closed conjuncts then evaluate. -/
theorem c6_port_spec_semantics_witness :
    pyInt "8050" = some 8050
    ∧ (port_in_svc PortSide.dst "8050" (some "tcp") (some (SvcEntity.obj svc443)) =
        Except.ok (("8050" == "443") ||
          (decide ((8000 : Int) < 8050) && decide ((8050 : Int) < 8100)))
      ∧ port_in_svc PortSide.dst "443" (some "tcp") (some (SvcEntity.obj svc443)) =
          Except.ok true
      ∧ port_in_svc PortSide.dst "8050" (some "tcp") (some (SvcEntity.obj svc443)) =
          Except.ok true
      ∧ port_in_svc PortSide.dst "8050" (some "udp") (some (SvcEntity.obj svc443)) =
          Except.ok false
      ∧ port_in_svc PortSide.dst "8101" (some "tcp") (some (SvcEntity.obj svc443)) =
          Except.ok false) :=
  ⟨by decide, c6_port_spec_semantics "8050" 8050 (by decide)⟩

/-- C8: on a Panorama-style manager, a supplied device-group name matching
no known device group makes both modules fail with the device-group-not-
found message, which carries the supplied name verbatim between apostrophes;
the failure outcome carries no rule, so nothing is created or queried. -/
theorem c8_unknown_devicegroup_fails (d : Device) (g : String) (pq : QueryParams)
    (pa : AddParams)
    (hpan : d.isPanorama = true)
    (hne : (g == "") = false)
    (hnf : ∀ gs ∈ d.deviceGroups, (gs.1 == g) = false)
    (hq : pq.devicegroup = some g)
    (ha : pa.devicegroup = some g) :
    queryMain d pq = QueryOutcome.failDevGroup (dgNotFoundMsg g)
    ∧ addRuleMain d pa = AddOutcome.failDevGroup (dgNotFoundMsg g)
    ∧ dgNotFoundMsg g =
        "'" ++ g ++ "' device group not found in Panorama. Is the name correct?" := by
  have htr : truthy (some g) = true := by simp [truthy, hne]
  have hfind : d.deviceGroups.find? (fun gs => gs.1 == g) = none := by
    refine List.find?_eq_none.mpr ?_
    intro gs hgs
    simp [hnf gs hgs]
  have hdg : dgResolve d pq = Except.error (dgNotFoundMsg g) := by
    simp only [dgResolve, hq, Option.getD_some, htr, hpan, Bool.and_self, if_true, hfind]
  have hex : devicegroup_exists d pa.devicegroup = false := by
    rw [ha]
    refine List.any_eq_false.mpr ?_
    intro gs hgs
    simp [hnf gs hgs]
  refine ⟨?_, ?_, rfl⟩
  · simp only [queryMain, hdg]
  · rw [ha] at hex
    simp only [addRuleMain, hpan, ha, hex, Bool.not_false, Bool.and_true, if_true,
      pyFormatStr]

/-- C8 witness: the unknown name DeviceGroupA against a Panorama knowing
only DG1: both modules fail with the message naming DeviceGroupA. -/
theorem c8_unknown_devicegroup_fails_witness :
    dgDevice.isPanorama = true
    ∧ (("DeviceGroupA" : String) == "") = false
    ∧ (∀ gs ∈ dgDevice.deviceGroups, (gs.1 == "DeviceGroupA") = false)
    ∧ ({ devicegroup := some "DeviceGroupA" } : QueryParams).devicegroup =
        some "DeviceGroupA"
    ∧ ({ rule_name := "r", devicegroup := some "DeviceGroupA" } : AddParams).devicegroup =
        some "DeviceGroupA"
    ∧ (queryMain dgDevice { devicegroup := some "DeviceGroupA" } =
        QueryOutcome.failDevGroup (dgNotFoundMsg "DeviceGroupA")
      ∧ addRuleMain dgDevice { rule_name := "r", devicegroup := some "DeviceGroupA" } =
        AddOutcome.failDevGroup (dgNotFoundMsg "DeviceGroupA")
      ∧ dgNotFoundMsg "DeviceGroupA" =
        "'" ++ "DeviceGroupA" ++
          "' device group not found in Panorama. Is the name correct?") :=
  ⟨rfl, by decide, by decide, rfl, rfl,
   c8_unknown_devicegroup_fails dgDevice "DeviceGroupA" _ _ rfl (by decide) (by decide)
     rfl rfl⟩

/-- C1: with the tag criterion supplied, a rule whose pre-tag criteria
complete and whose tag list has a name resolving to a tag object named like
the queried tag makes the whole query return immediately: whatever rules
follow (rs2 is universally quantified, so they are skipped entirely) and
whatever the earlier rules accumulated, main ends on the early-return path,
not scoped to the current rule's tag criterion. -/
theorem c1_tag_match_short_circuits_whole_query (d : Device) (p : QueryParams)
    (dg : Option Scope) (rs1 rs2 : List Rule) (r : Rule) (hl : List Bool)
    (hdg : dgResolve d p = Except.ok dg)
    (htag : truthy p.tag = true)
    (hpre : preTagHitlist { device := d, devGroup := dg } p r = Except.ok hl)
    (hhit : tag_hit { device := d, devGroup := dg } (p.tag.getD "") r.tag =
      Except.ok true)
    (hrs1 : ∀ ru ∈ rs1, ∃ l,
      evalRule { device := d, devGroup := dg } p ru = Except.ok (RuleEval.hitlist l))
    (hrules : d.rules = rs1 ++ r :: rs2) :
    queryMain d p = QueryOutcome.earlyReturn := by
  have hev : evalRule { device := d, devGroup := dg } p r =
      Except.ok RuleEval.earlyReturn := by
    simp only [evalRule, hpre, htag, if_true, hhit]
  obtain ⟨acc2, hskip⟩ :=
    processRules_hitlist_prefix { device := d, devGroup := dg } p rs1 [] (r :: rs2) hrs1
  simp only [queryMain, hdg, hrules, hskip]
  simp only [processRules, hev]

/-- C1 witness: two rules tagged prod, queried tag prod: the first rule's
tag match ends the query early, skipping the second rule. -/
theorem c1_tag_match_short_circuits_whole_query_witness :
    dgResolve tagDevice tagParams = Except.ok none
    ∧ truthy tagParams.tag = true
    ∧ preTagHitlist { device := tagDevice, devGroup := none } tagParams tagRule1 =
        Except.ok []
    ∧ tag_hit { device := tagDevice, devGroup := none } (tagParams.tag.getD "")
        tagRule1.tag = Except.ok true
    ∧ tagDevice.rules = [] ++ tagRule1 :: [tagRule2]
    ∧ queryMain tagDevice tagParams = QueryOutcome.earlyReturn :=
  ⟨rfl, by decide, by decide, by decide, rfl,
   c1_tag_match_short_circuits_whole_query tagDevice tagParams none [] [tagRule2]
     tagRule1 [] rfl (by decide) (by decide) (by decide)
     (fun ru hru => absurd hru (List.not_mem_nil ru)) rfl⟩

/-- C3: the claim (and the module documentation, whose third example
supplies only individual profiles) says that without a composite group each
supplied individual profile is set on the constructed rule.  But main
passes every keyword to create_security_rule, so the group_profile key is
always in kwargs (kwargsOfParams records this) and the seven individual
assignments are dead code: at the failing input (antivirus "AV" supplied,
group_profile left at its None default), the constructed rule gets
group = None assigned while the antivirus profile, and every other
individual profile, is silently dropped. -/
theorem c3_individual_profiles_never_set :
    c3Params.group_profile = none
    ∧ c3Params.antivirus = some "AV"
    ∧ (kwargsOfParams c3Params).group_profile = some none
    ∧ (kwargsOfParams c3Params).antivirus = some (some "AV")
    ∧ (create_security_rule (kwargsOfParams c3Params)).group = some none
    ∧ (create_security_rule (kwargsOfParams c3Params)).virus = none
    ∧ (create_security_rule (kwargsOfParams c3Params)).vulnerability = none
    ∧ (create_security_rule (kwargsOfParams c3Params)).spyware = none
    ∧ (create_security_rule (kwargsOfParams c3Params)).url_filtering = none
    ∧ (create_security_rule (kwargsOfParams c3Params)).file_blocking = none
    ∧ (create_security_rule (kwargsOfParams c3Params)).data_filtering = none
    ∧ (create_security_rule (kwargsOfParams c3Params)).wildfire_analysis = none
    ∧ addRuleMain c3Device c3Params =
        AddOutcome.added (create_security_rule (kwargsOfParams c3Params))
          ("Rule '" ++ "r" ++ "' successfully added") := by
  refine ⟨rfl, rfl, rfl, rfl, by decide, by decide, by decide, by decide, by decide,
    by decide, by decide, by decide, by decide⟩

/-- C4 counterexample: the claim says a malformed (non-numeric) port value
met while matching a port spec is locally absorbed as a non-match and never
surfaces.  At the concrete input (destination_port "https" against a
service whose spec is the range 80-90) int(port) raises ValueError, which
no handler catches: the whole query surfaces the error. -/
theorem c4_counterexample_bad_port_error_surfaces :
    queryMain badPortDevice badPortParams = QueryOutcome.pyError PyErr.valueError := by
  decide

/-- C4 amended: an address-list token that resolves to no object and fails
to parse as a literal network is absorbed as a non-match (the loop continues
with the flag unchanged); but a non-numeric queried port meeting a ranged
spec element raises ValueError out of the port test instead of being
absorbed. -/
theorem c4_bad_ip_absorbed_bad_port_raises (env : Env) (q tok : String) (acc : Bool)
    (svc : ServiceObject) (protocol : Option String) (port x lo hi : String)
    (l u : Int) (tl rest : List String)
    (hobj : get_object env tok = Except.ok none)
    (hparse : ip_network tok = none)
    (hx : pyContains x dashChar = true)
    (hsplit : pySplit x dashChar = lo :: hi :: tl)
    (hlo : pyInt lo = some l)
    (hhi : pyInt hi = some u)
    (hport : pyInt port = none) :
    ipTokenStep env q acc tok = Except.ok acc
    ∧ portElems svc protocol port (x :: rest) = Except.error PyErr.valueError := by
  constructor
  · simp only [ipTokenStep, hobj, hparse]
  · simp only [portElems, hx, if_true, hsplit, parseIntOrRaise, hlo, hhi, hport]

/-- C4 witness: the amended statement applied to the unresolvable,
unparseable token "10.0.0.999" and the non-numeric port "https" against the
80-90 range spec. -/
theorem c4_bad_ip_absorbed_bad_port_raises_witness :
    get_object { device := badPortDevice, devGroup := none } "10.0.0.999" =
      Except.ok none
    ∧ ip_network "10.0.0.999" = none
    ∧ pyContains "80-90" dashChar = true
    ∧ pySplit "80-90" dashChar = ["80", "90"]
    ∧ pyInt "80" = some 80
    ∧ pyInt "90" = some 90
    ∧ pyInt "https" = none
    ∧ (ipTokenStep { device := badPortDevice, devGroup := none } "10.0.0.5" false
        "10.0.0.999" = Except.ok false
      ∧ portElems badPortSvc (some "tcp") "https" ["80-90"] =
          Except.error PyErr.valueError) :=
  ⟨by decide, by decide, by decide, by decide, by decide, by decide, by decide,
   c4_bad_ip_absorbed_bad_port_raises { device := badPortDevice, devGroup := none }
     "10.0.0.5" "10.0.0.999" false badPortSvc (some "tcp") "https" "80-90" "80" "90"
     80 90 [] [] (by decide) (by decide) (by decide) (by decide) (by decide)
     (by decide) (by decide)⟩

/-- C5 counterexample: with only the tag criterion supplied, the first rule
satisfies it (its tag resolves to a tag object named like the queried tag),
yet main ends on the early-return path: it neither exits successfully with
the serialized rules and count summary (as the claim requires when at least
one rule is a hit) nor with the no-match failure. -/
theorem c5_counterexample_tag_hit_no_success_exit :
    tag_hit { device := tagDevice, devGroup := none } "prod" tagRule1.tag =
      Except.ok true
    ∧ queryMain tagDevice tagParams = QueryOutcome.earlyReturn := by
  refine ⟨by decide, by decide⟩

/-- C5 amended: whenever the rule loop completes normally (no tag-criterion
early return and no exception, i.e. it yields a hit list), the query fails
with the no-matching-rules message exactly when that hit list is empty, and
on a non-empty hit list exits successfully carrying the matching rules and
the count-summary message. -/
theorem c5_exit_summary_when_loop_completes (d : Device) (p : QueryParams)
    (dg : Option Scope) (hits : List Rule)
    (hdg : dgResolve d p = Except.ok dg)
    (hproc : processRules { device := d, devGroup := dg } p [] d.rules =
      Except.ok (some hits)) :
    (queryMain d p = QueryOutcome.failNoMatch ("No matching rules found.") ↔ hits = [])
    ∧ (hits ≠ [] → queryMain d p =
        QueryOutcome.exitOk hits (countMsg hits.length d.rules.length)) := by
  simp only [queryMain, hdg, hproc]
  by_cases he : hits = []
  · subst he
    simp
  · have he2 : hits.isEmpty = false := by
      cases hits with
      | nil => exact absurd rfl he
      | cons a tl => rfl
    simp only [he2, Bool.false_eq_true, if_false]
    constructor
    · constructor
      · intro hx
        exact absurd hx (by simp)
      · intro hx
        exact absurd hx he
    · intro _
      trivial

/-- C5 witness: a criteria-free query over the two-rule device completes
with both rules as hits and exits successfully with the 2-of-2 summary. -/
theorem c5_exit_summary_when_loop_completes_witness :
    dgResolve tagDevice {} = Except.ok none
    ∧ processRules { device := tagDevice, devGroup := none } {} [] tagDevice.rules =
        Except.ok (some [tagRule1, tagRule2])
    ∧ ((queryMain tagDevice {} = QueryOutcome.failNoMatch ("No matching rules found.") ↔
        ([tagRule1, tagRule2] : List Rule) = [])
      ∧ (([tagRule1, tagRule2] : List Rule) ≠ [] → queryMain tagDevice {} =
          QueryOutcome.exitOk [tagRule1, tagRule2]
            (countMsg ([tagRule1, tagRule2] : List Rule).length
              tagDevice.rules.length))) :=
  ⟨rfl, by decide, c5_exit_summary_when_loop_completes tagDevice {} none
    [tagRule1, tagRule2] rfl (by decide)⟩

/-- C9: with no criterion supplied (all seven criteria parameters untruthy)
every rule's hit list stays empty, so False is never in it and every rule of
the rulebase is collected as a hit, in order, whatever the environment. -/
theorem c9_empty_criteria_all_rules_hit (env : Env) (p : QueryParams)
    (rules acc : List Rule)
    (h1 : truthy p.source_zone = false)
    (h2 : truthy p.destination_zone = false)
    (h3 : truthy p.source_ip = false)
    (h4 : truthy p.destination_ip = false)
    (h5 : truthy p.source_port = false)
    (h6 : truthy p.destination_port = false)
    (h7 : truthy p.tag = false) :
    processRules env p acc rules = Except.ok (some (acc ++ rules)) := by
  have hev : ∀ r : Rule, evalRule env p r = Except.ok (RuleEval.hitlist []) := by
    intro r
    simp only [evalRule, preTagHitlist, appendCrit, h1, h2, h3, h4, h5, h6, h7,
      Bool.false_eq_true, if_false]
  induction rules generalizing acc with
  | nil => simp [processRules]
  | cons r tl ih =>
    simp only [processRules, hev r, List.contains, List.elem_nil, Bool.false_eq_true,
      if_false]
    rw [ih (acc ++ [r])]
    simp

/-- C9 witness: the all-defaults parameter record against the two-rule
device collects both rules. -/
theorem c9_empty_criteria_all_rules_hit_witness :
    truthy ({} : QueryParams).source_zone = false
    ∧ truthy ({} : QueryParams).destination_zone = false
    ∧ truthy ({} : QueryParams).source_ip = false
    ∧ truthy ({} : QueryParams).destination_ip = false
    ∧ truthy ({} : QueryParams).source_port = false
    ∧ truthy ({} : QueryParams).destination_port = false
    ∧ truthy ({} : QueryParams).tag = false
    ∧ processRules { device := tagDevice, devGroup := none } {} [] tagDevice.rules =
        Except.ok (some ([] ++ tagDevice.rules)) :=
  ⟨rfl, rfl, rfl, rfl, rfl, rfl, rfl,
   c9_empty_criteria_all_rules_hit { device := tagDevice, devGroup := none } {}
     tagDevice.rules [] rfl rfl rfl rfl rfl rfl rfl⟩

/-- C10: a top-level service token resolving to neither a service object
nor a service group is skipped without effect; a token resolving to a
service group whose member list contains an unresolvable name makes the
fold raise (the unresolved member reaches port_in_svc, whose attribute
access on False raises AttributeError), and at the concrete ghost-member
device the whole query surfaces AttributeError instead of skipping. -/
theorem c10_group_member_unresolved_raises (env : Env) (side : PortSide) (port : String)
    (protocol : Option String) (skipTok grpTok m : String) (g : ServiceGroup)
    (rest : List String) (acc : Bool)
    (hskip : get_service env skipTok = Except.ok none)
    (hgrp : get_service env grpTok = Except.ok (some (SvcEntity.grp g)))
    (hm : m ∈ g.value)
    (hmu : get_service env m = Except.ok none) :
    svcTokens env side port protocol (skipTok :: rest) acc =
      svcTokens env side port protocol rest acc
    ∧ (∃ e, svcTokens env side port protocol (grpTok :: rest) acc = Except.error e)
    ∧ queryMain ghostDevice ghostParams = QueryOutcome.pyError PyErr.attributeError := by
  refine ⟨?_, ?_, by decide⟩
  · simp only [svcTokens, hskip]
  · obtain ⟨e, he⟩ :=
      svcMembers_unresolved_member_errs env side port protocol m hmu g.value acc hm
    exact ⟨e, by simp only [svcTokens, hgrp, he]⟩

/-- C10 witness: against the ghost-member device, the unresolved top-level
token "nosuch" is skipped, while the group token "grp" with unresolved
member "ghost" raises. -/
theorem c10_group_member_unresolved_raises_witness :
    get_service { device := ghostDevice, devGroup := none } "nosuch" = Except.ok none
    ∧ get_service { device := ghostDevice, devGroup := none } "grp" =
        Except.ok (some (SvcEntity.grp { name := "grp", value := ["ghost"] }))
    ∧ ("ghost" : String) ∈ ({ name := "grp", value := ["ghost"] } : ServiceGroup).value
    ∧ get_service { device := ghostDevice, devGroup := none } "ghost" = Except.ok none
    ∧ (svcTokens { device := ghostDevice, devGroup := none } PortSide.dst "443"
        (some "tcp") ["nosuch"] false =
          svcTokens { device := ghostDevice, devGroup := none } PortSide.dst "443"
            (some "tcp") [] false
      ∧ (∃ e, svcTokens { device := ghostDevice, devGroup := none } PortSide.dst "443"
          (some "tcp") ["grp"] false = Except.error e)
      ∧ queryMain ghostDevice ghostParams = QueryOutcome.pyError PyErr.attributeError) :=
  ⟨by decide, by decide, by decide, by decide,
   c10_group_member_unresolved_raises { device := ghostDevice, devGroup := none }
     PortSide.dst "443" (some "tcp") "nosuch" "grp" "ghost"
     { name := "grp", value := ["ghost"] } [] false (by decide) (by decide) (by decide)
     (by decide)⟩

end Panos
